import Mathlib

/-!
Shallow embedding of the coordinate-conversion core of the
`land_survey_school_work_1` repository.

Two source files are modelled:
* `src/assignment/models.py` — namespace `Assignment`: plain data classes
  (no validation), radian-based conversions, and the type-dispatching
  batch driver `transform_coordinates`.
* `src/streamlit/kenya_demo.py` — namespace `KenyaDemo`: validated polar
  construction, degree-based conversions with `[0, 360)` normalization,
  and the per-line batch text processing of the "Batch Processing" tab.

Python floats are modelled by real numbers (`ℝ`); parsed numeric literals
carry exact rational values (`ℚ`) so the batch layer stays kernel-evaluable.
Python exceptions are modelled by `Except String`.
-/

/-- Coordinate in the polar system: `(distance, angle)`.  Mirrors the
`PolarCoordinate` data class fields shared by both source files. -/
structure PolarCoordinate where
  distance : ℝ
  angle : ℝ

/-- Coordinate in the rectangular system: `(northing, easting)`.  Mirrors the
`RectangularCoordinate` data class fields shared by both source files. -/
structure RectangularCoordinate where
  northing : ℝ
  easting : ℝ

/-- Python `math.radians`: degrees to radians, `x * pi / 180`. -/
noncomputable def radians (x : ℝ) : ℝ := x * Real.pi / 180

/-- Python `math.degrees`: radians to degrees, `x * 180 / pi`. -/
noncomputable def degrees (x : ℝ) : ℝ := x * 180 / Real.pi

/-- Python `math.atan2 y x`: the angle of the point `(x, y)` in `(-π, π]`,
with `atan2 0 0 = 0`.  This is exactly `Complex.arg` of `x + y*I`. -/
noncomputable def atan2 (y x : ℝ) : ℝ := Complex.arg ⟨x, y⟩

/-- Tagged union standing for Python's dynamic typing of list elements in
`src/assignment/models.py`: a list element is either a `PolarCoordinate`
or a `RectangularCoordinate`, distinguished by `isinstance`. -/
inductive Coordinate where
  | polar (p : PolarCoordinate)
  | rect (r : RectangularCoordinate)

namespace Assignment

/-- `polar_to_rect` of `src/assignment/models.py` (lines 22-25): the angle is
fed to `math.cos` / `math.sin` directly, i.e. it is taken in radians. -/
noncomputable def polar_to_rect (coord : PolarCoordinate) : RectangularCoordinate :=
  ⟨coord.distance * Real.cos coord.angle, coord.distance * Real.sin coord.angle⟩

/-- `rect_to_polar` of `src/assignment/models.py` (lines 27-30): radian angle
straight from `atan2(easting, northing)`, no normalization, no validation. -/
noncomputable def rect_to_polar (coord : RectangularCoordinate) : PolarCoordinate :=
  ⟨Real.sqrt (coord.northing ^ 2 + coord.easting ^ 2), atan2 coord.easting coord.northing⟩

/-- Element-wise conversion loop of `transform_coordinates`.  The global
`output_coordinates` accumulator of the source is modelled as the returned
list; a raised exception (heterogeneous input) aborts the loop. -/
noncomputable def convertEach (f : Coordinate → Except String Coordinate) :
    List Coordinate → Except String (List Coordinate)
  | [] => Except.ok []
  | c :: rest =>
    match f c with
    | Except.error e => Except.error e
    | Except.ok out =>
      match convertEach f rest with
      | Except.error e => Except.error e
      | Except.ok outs => Except.ok (out :: outs)

/-- `transform_coordinates` of `src/assignment/models.py` (lines 32-42):
direction is dispatched once on `isinstance(input[0], PolarCoordinate)`;
`input[0]` on an empty list raises `IndexError`; applying a conversion to an
element of the wrong type raises `AttributeError` (missing attribute). -/
noncomputable def transform_coordinates : List Coordinate → Except String (List Coordinate)
  | [] => Except.error "IndexError: list index out of range"
  | Coordinate.polar p :: rest =>
    convertEach
      (fun c =>
        match c with
        | Coordinate.polar q => Except.ok (Coordinate.rect (polar_to_rect q))
        | Coordinate.rect _ => Except.error "AttributeError")
      (Coordinate.polar p :: rest)
  | Coordinate.rect r :: rest =>
    convertEach
      (fun c =>
        match c with
        | Coordinate.rect q => Except.ok (Coordinate.polar (rect_to_polar q))
        | Coordinate.polar _ => Except.error "AttributeError")
      (Coordinate.rect r :: rest)

end Assignment

namespace KenyaDemo

/-- `PolarCoordinate.__init__` of `src/streamlit/kenya_demo.py` (lines 34-40):
raises `ValueError("Distance must be non-negative")` when `distance < 0`. -/
noncomputable def PolarCoordinate.make (distance angle : ℝ) : Except String PolarCoordinate :=
  if distance < 0 then Except.error "Distance must be non-negative"
  else Except.ok ⟨distance, angle⟩

/-- `polar_to_rect` of `src/streamlit/kenya_demo.py` (lines 56-61): the angle
is converted from degrees to radians before `cos` / `sin`. -/
noncomputable def polar_to_rect (coord : PolarCoordinate) : RectangularCoordinate :=
  let angle_rad := radians coord.angle
  ⟨coord.distance * Real.cos angle_rad, coord.distance * Real.sin angle_rad⟩

/-- `rect_to_polar` of `src/streamlit/kenya_demo.py` (lines 64-72):
`sqrt` of the sum of squares, `atan2(easting, northing)` converted to
degrees, `+360` when negative, then the validating constructor. -/
noncomputable def rect_to_polar (coord : RectangularCoordinate) : Except String PolarCoordinate :=
  let distance := Real.sqrt (coord.northing ^ 2 + coord.easting ^ 2)
  let angle_rad := atan2 coord.easting coord.northing
  let angle_deg := degrees angle_rad
  if angle_deg < 0 then PolarCoordinate.make distance (angle_deg + 360)
  else PolarCoordinate.make distance angle_deg

end KenyaDemo

/-- Splits a character list at every occurrence of `sep`, keeping empty
segments — the behaviour of Python `str.split(sep)`. -/
def splitOnChar (sep : Char) : List Char → List (List Char)
  | [] => [[]]
  | c :: rest =>
    if c = sep then [] :: splitOnChar sep rest
    else
      match splitOnChar sep rest with
      | [] => [[c]]
      | g :: gs => (c :: g) :: gs

/-- Python `str.strip()`: removes leading and trailing whitespace. -/
def trimList (cs : List Char) : List Char :=
  ((cs.dropWhile Char.isWhitespace).reverse.dropWhile Char.isWhitespace).reverse

/-- Numeric value of a digit string, most significant digit first. -/
def natOfDigits (cs : List Char) : ℕ :=
  cs.foldl (fun n c => 10 * n + (c.toNat - 48)) 0

/-- Decimal part of Python `float()` literal parsing: an unsigned decimal
literal `digits`, `digits.digits`, `digits.` or `.digits`.  (The model covers
the plain decimal forms; exponent and special forms are not used by any
input this development reasons about.) -/
def parseUnsigned (cs : List Char) : Option ℚ :=
  match splitOnChar '.' cs with
  | [intPart] =>
    if !intPart.isEmpty && intPart.all Char.isDigit then some (natOfDigits intPart) else none
  | [intPart, fracPart] =>
    if (!intPart.isEmpty || !fracPart.isEmpty) && intPart.all Char.isDigit
        && fracPart.all Char.isDigit then
      some ((natOfDigits intPart : ℚ) + (natOfDigits fracPart : ℚ) / (10 : ℚ) ^ fracPart.length)
    else none
  | _ => none

/-- Python `float(s)` on a decimal literal with an optional sign; `none`
models the `ValueError` raised on non-numeric input. -/
def parseFloat (cs : List Char) : Option ℚ :=
  match cs with
  | '-' :: rest => (parseUnsigned rest).map (fun q => -q)
  | '+' :: rest => parseUnsigned rest
  | _ => parseUnsigned cs

/-- Python float modulo `a % 360`: the representative of `a` in `[0, 360)`. -/
def pymod360 (a : ℚ) : ℚ := a - 360 * ((⌊a / 360⌋ : ℤ) : ℚ)

namespace KenyaDemo

/-- One row of the polar→rectangular batch results table
(`src/streamlit/kenya_demo.py` lines 372-379): row number, the parsed
inputs, and the converted outputs. -/
structure BatchRow where
  row : ℕ
  distance : ℚ
  angle : ℚ
  northing : ℝ
  easting : ℝ

/-- Outcome of one batch line: a result row, a silent skip (the
`len(parts) == 2` test fails, no `except` is triggered), or a caught
exception that produces a warning. -/
inductive LineResult where
  | ok (r : BatchRow)
  | skipped
  | failed

/-- One iteration of the polar→rectangular batch loop of
`src/streamlit/kenya_demo.py` (lines 367-389): split on `,`; if exactly two
fields, parse both floats (a parse failure raises, caught as a warning),
reduce the angle mod 360, construct the validated polar value (negative
distance raises, caught as a warning) and convert it. -/
noncomputable def processLine (i : ℕ) (line : List Char) : LineResult :=
  match splitOnChar ',' line with
  | [field0, field1] =>
    match parseFloat (trimList field0) with
    | none => LineResult.failed
    | some dist =>
      match parseFloat (trimList field1) with
      | none => LineResult.failed
      | some a =>
        let ang := pymod360 a
        if dist < 0 then LineResult.failed
        else
          let rect := polar_to_rect ⟨(dist : ℝ), (ang : ℝ)⟩
          LineResult.ok ⟨i, dist, ang, rect.northing, rect.easting⟩
  | _ => LineResult.skipped

/-- Accumulated batch outcome: the `results` list and the row numbers for
which a warning was emitted. -/
structure BatchOutcome where
  results : List BatchRow
  warnings : List ℕ

/-- The batch loop over all lines, rows numbered from `i`
(`enumerate(lines, 1)` in the source starts at 1). -/
noncomputable def processLines (i : ℕ) : List (List Char) → BatchOutcome
  | [] => ⟨[], []⟩
  | line :: rest =>
    let r := processLines (i + 1) rest
    match processLine i line with
    | LineResult.ok row => ⟨row :: r.results, r.warnings⟩
    | LineResult.skipped => r
    | LineResult.failed => ⟨r.results, i :: r.warnings⟩

/-- Result of pressing "Process Batch": either the processed outcome, or the
"No valid coordinates to process" warning for blank input. -/
inductive BatchReport where
  | processed (outcome : BatchOutcome)
  | nothingToProcess

/-- The polar→rectangular "Process Batch" handler
(`src/streamlit/kenya_demo.py` lines 364-402): blank input (empty after
`strip()`) reports nothing to process; otherwise the stripped input is split
into lines and processed row by row. -/
noncomputable def runBatchPolar (input : String) : BatchReport :=
  let stripped := trimList input.data
  if stripped.isEmpty then BatchReport.nothingToProcess
  else BatchReport.processed (processLines 1 (splitOnChar '\n' stripped))

/-- Convenience entry point for a batch already split into lines. -/
noncomputable def processBatchPolar (lines : List String) : BatchOutcome :=
  processLines 1 (lines.map String.data)

end KenyaDemo

/-! ### Helper lemmas -/

/-- Evaluated form of `KenyaDemo.rect_to_polar`: construction always succeeds
because the distance is a square root. -/
lemma rect_to_polar_eq (n e : ℝ) :
    KenyaDemo.rect_to_polar ⟨n, e⟩ =
      Except.ok ⟨Real.sqrt (n ^ 2 + e ^ 2),
        if degrees (atan2 e n) < 0 then degrees (atan2 e n) + 360
        else degrees (atan2 e n)⟩ := by
  have hs : ¬ Real.sqrt (n ^ 2 + e ^ 2) < 0 := not_lt.mpr (Real.sqrt_nonneg _)
  unfold KenyaDemo.rect_to_polar KenyaDemo.PolarCoordinate.make
  by_cases hneg : degrees (atan2 e n) < 0
  · simp only [if_pos hneg, if_neg hs]
  · simp only [if_neg hneg, if_neg hs]

/-- The raw angle produced by `atan2`, in degrees, lies in `(-180, 180]`. -/
lemma rawAngle_bounds (n e : ℝ) :
    -180 < degrees (atan2 e n) ∧ degrees (atan2 e n) ≤ 180 := by
  obtain ⟨h1, h2⟩ := Complex.arg_mem_Ioc (⟨n, e⟩ : ℂ)
  have hπ := Real.pi_pos
  unfold degrees atan2
  constructor
  · rw [lt_div_iff₀ hπ]
    nlinarith
  · rw [div_le_iff₀ hπ]
    nlinarith

/-- `atan2` recovers the angle of a positively scaled unit vector, provided
the angle already lies in the principal range `(-π, π]`. -/
lemma atan2_smul_cos_sin {d r : ℝ} (hd : 0 < d) (hr : r ∈ Set.Ioc (-Real.pi) Real.pi) :
    atan2 (d * Real.sin r) (d * Real.cos r) = r := by
  unfold atan2
  have h1 : (Complex.mk (d * Real.cos r) (d * Real.sin r)) =
      (d : ℂ) * (Complex.cos (r : ℝ) + Complex.sin (r : ℝ) * Complex.I) := by
    rw [Complex.mk_eq_add_mul_I, ← Complex.ofReal_cos, ← Complex.ofReal_sin]
    push_cast
    ring
  rw [h1, Complex.arg_real_mul _ hd, Complex.arg_cos_add_sin_mul_I hr]

/-- Pythagorean collapse of the round trip distance. -/
lemma dist_of_cos_sin (d r : ℝ) (hd : 0 ≤ d) :
    Real.sqrt ((d * Real.cos r) ^ 2 + (d * Real.sin r) ^ 2) = d := by
  have h : (d * Real.cos r) ^ 2 + (d * Real.sin r) ^ 2 = d ^ 2 := by
    linear_combination d ^ 2 * Real.sin_sq_add_cos_sq r
  rw [h, Real.sqrt_sq hd]

/-- Degrees and radians are inverse rescalings. -/
lemma degrees_radians (θ : ℝ) : degrees (radians θ) = θ := by
  have hπ := Real.pi_ne_zero
  unfold degrees radians
  field_simp

/-! ### Claim theorems -/

/-- C2: for every polar input with distance ≥ 0 and angle in degrees,
`polar_to_rect` returns `northing = distance * cos(radians angle)` and
`easting = distance * sin(radians angle)`. -/
theorem polar_to_rect_formula (d θ : ℝ) (hd : 0 ≤ d) :
    KenyaDemo.polar_to_rect ⟨d, θ⟩ =
      ⟨d * Real.cos (θ * Real.pi / 180), d * Real.sin (θ * Real.pi / 180)⟩ := rfl

/-- Witness for C2 at distance 1, angle 0. -/
theorem polar_to_rect_formula_witness :
    (0 : ℝ) ≤ 1 ∧ KenyaDemo.polar_to_rect ⟨1, 0⟩ =
      ⟨1 * Real.cos (0 * Real.pi / 180), 1 * Real.sin (0 * Real.pi / 180)⟩ :=
  ⟨by norm_num, polar_to_rect_formula 1 0 (by norm_num)⟩

/-- C8: the angle is a compass bearing measured clockwise from north: angle 0
maps distance D to `(northing = D, easting = 0)` and angle 90 maps it to
`(northing = 0, easting = D)`. -/
theorem polar_to_rect_bearing (D : ℝ) (hD : 0 ≤ D) :
    KenyaDemo.polar_to_rect ⟨D, 0⟩ = ⟨D, 0⟩ ∧
    KenyaDemo.polar_to_rect ⟨D, 90⟩ = ⟨0, D⟩ := by
  have h : (90 : ℝ) * Real.pi / 180 = Real.pi / 2 := by ring
  constructor
  · simp [KenyaDemo.polar_to_rect, radians]
  · simp [KenyaDemo.polar_to_rect, radians, h, Real.cos_pi_div_two, Real.sin_pi_div_two]

/-- Witness for C8 at distance 5. -/
theorem polar_to_rect_bearing_witness :
    (0 : ℝ) ≤ 5 ∧ (KenyaDemo.polar_to_rect ⟨5, 0⟩ = ⟨5, 0⟩ ∧
      KenyaDemo.polar_to_rect ⟨5, 90⟩ = ⟨0, 5⟩) :=
  ⟨by norm_num, polar_to_rect_bearing 5 (by norm_num)⟩

/-- C5: constructing a polar value with distance -1 fails with the validation
error, while distance 0 succeeds and `polar_to_rect` maps it to `(0, 0)` for
any angle. -/
theorem polar_validation (θ : ℝ) :
    KenyaDemo.PolarCoordinate.make (-1) θ = Except.error "Distance must be non-negative" ∧
    KenyaDemo.PolarCoordinate.make 0 θ = Except.ok ⟨0, θ⟩ ∧
    KenyaDemo.polar_to_rect ⟨0, θ⟩ = ⟨0, 0⟩ := by
  refine ⟨?_, ?_, ?_⟩
  · unfold KenyaDemo.PolarCoordinate.make
    rw [if_pos (by norm_num)]
  · unfold KenyaDemo.PolarCoordinate.make
    rw [if_neg (by norm_num)]
  · simp [KenyaDemo.polar_to_rect]

/-- C10: `rect_to_polar` never raises: the computed distance is a square root,
hence non-negative, so the validating constructor always succeeds. -/
theorem rect_to_polar_total (c : RectangularCoordinate) :
    ∃ p : PolarCoordinate, KenyaDemo.rect_to_polar c = Except.ok p ∧ 0 ≤ p.distance := by
  obtain ⟨n, e⟩ := c
  exact ⟨_, rect_to_polar_eq n e, Real.sqrt_nonneg _⟩

/-- C4: the angle returned by `rect_to_polar` always lies in `[0, 360)`. -/
theorem rect_to_polar_angle_range (c : RectangularCoordinate) (p : PolarCoordinate)
    (h : KenyaDemo.rect_to_polar c = Except.ok p) : 0 ≤ p.angle ∧ p.angle < 360 := by
  obtain ⟨n, e⟩ := c
  rw [rect_to_polar_eq n e] at h
  injection h with h
  subst h
  obtain ⟨hlo, hhi⟩ := rawAngle_bounds n e
  dsimp only
  split_ifs with hneg
  · constructor <;> linarith
  · constructor <;> linarith

/-- Witness for C4 at the rectangular input `(1, 0)`. -/
theorem rect_to_polar_angle_range_witness :
    0 ≤ (PolarCoordinate.mk 1 0).angle ∧ (PolarCoordinate.mk 1 0).angle < 360 :=
  rect_to_polar_angle_range ⟨1, 0⟩ ⟨1, 0⟩ (by
    rw [rect_to_polar_eq]
    have h1 : atan2 0 1 = 0 := by
      unfold atan2
      rw [show (⟨1, 0⟩ : ℂ) = 1 from Complex.ext (by simp) (by simp), Complex.arg_one]
    norm_num [h1, degrees])

/-- C3 counterexample: at the rectangular input `(0, -1)` the returned angle
is `270`, while `degrees (atan2 easting northing)` is `-90`, so the returned
angle is not literally the `atan2` value converted to degrees (the source
adds 360 to negative raw angles first). -/
theorem rect_to_polar_formula_cex :
    KenyaDemo.rect_to_polar ⟨0, -1⟩ = Except.ok ⟨1, 270⟩ ∧
    degrees (atan2 (-1) 0) = -90 ∧ ¬ ((270 : ℝ) = -90) := by
  have harg : atan2 (-1) 0 = -(Real.pi / 2) := by
    unfold atan2
    rw [show (⟨0, -1⟩ : ℂ) = -Complex.I from Complex.ext (by simp) (by simp), Complex.arg_neg_I]
  have hdeg : degrees (atan2 (-1) 0) = -90 := by
    have hπ := Real.pi_ne_zero
    rw [harg]
    unfold degrees
    field_simp
    ring
  refine ⟨?_, hdeg, by norm_num⟩
  rw [rect_to_polar_eq, hdeg]
  norm_num

/-- C3 (amended): `rect_to_polar` returns distance `sqrt(northing² + easting²)`
and the angle `degrees (atan2 easting northing)` — `atan2` taking easting
first — normalized by adding 360 when the raw degree value is negative. -/
theorem rect_to_polar_formula (c : RectangularCoordinate) :
    ∃ p : PolarCoordinate, KenyaDemo.rect_to_polar c = Except.ok p ∧
      p.distance = Real.sqrt (c.northing ^ 2 + c.easting ^ 2) ∧
      p.angle = (if degrees (atan2 c.easting c.northing) < 0
        then degrees (atan2 c.easting c.northing) + 360
        else degrees (atan2 c.easting c.northing)) := by
  obtain ⟨n, e⟩ := c
  exact ⟨_, rect_to_polar_eq n e, rfl, rfl⟩

/-- C1: the polar→rectangular→polar round trip is the identity on distance,
and on the angle for every angle in `[0, 360)` and positive distance, with
the degenerate distance-0 case coming back with angle 0. -/
theorem polar_rect_roundtrip (d θ : ℝ) (hd : 0 ≤ d) (h0 : 0 ≤ θ) (h1 : θ < 360) :
    KenyaDemo.rect_to_polar (KenyaDemo.polar_to_rect ⟨d, θ⟩) =
      Except.ok ⟨d, if d = 0 then 0 else θ⟩ := by
  have hπ := Real.pi_pos
  rcases eq_or_lt_of_le hd with hd0 | hdpos
  · have hdz : d = 0 := hd0.symm
    subst hdz
    rw [show KenyaDemo.polar_to_rect ⟨0, θ⟩ = ⟨0, 0⟩ from by simp [KenyaDemo.polar_to_rect],
      rect_to_polar_eq]
    have hz : atan2 0 0 = 0 := by
      unfold atan2
      rw [show (⟨0, 0⟩ : ℂ) = 0 from Complex.ext (by simp) (by simp), Complex.arg_zero]
    simp [hz, degrees]
  · have hdne : d ≠ 0 := ne_of_gt hdpos
    have hstep : KenyaDemo.polar_to_rect ⟨d, θ⟩ =
        ⟨d * Real.cos (radians θ), d * Real.sin (radians θ)⟩ := rfl
    rw [hstep, rect_to_polar_eq]
    by_cases hcase : θ ≤ 180
    · have hrange : radians θ ∈ Set.Ioc (-Real.pi) Real.pi := by
        constructor
        · have hnn : 0 ≤ θ * Real.pi / 180 := by positivity
          unfold radians
          linarith
        · unfold radians
          rw [div_le_iff₀ (by norm_num : (0 : ℝ) < 180)]
          nlinarith
      rw [atan2_smul_cos_sin hdpos hrange, dist_of_cos_sin d (radians θ) hd, degrees_radians,
        if_neg (not_lt.mpr h0), if_neg hdne]
    · push_neg at hcase
      have hcos : d * Real.cos (radians θ) = d * Real.cos (radians θ - 2 * Real.pi) := by
        rw [Real.cos_sub_two_pi]
      have hsin : d * Real.sin (radians θ) = d * Real.sin (radians θ - 2 * Real.pi) := by
        rw [Real.sin_sub_two_pi]
      rw [hcos, hsin]
      have hrange : radians θ - 2 * Real.pi ∈ Set.Ioc (-Real.pi) Real.pi := by
        unfold radians
        constructor
        · nlinarith [mul_pos (by linarith : (0 : ℝ) < θ - 180) hπ]
        · nlinarith [mul_pos (by linarith : (0 : ℝ) < 540 - θ) hπ]
      rw [atan2_smul_cos_sin hdpos hrange, dist_of_cos_sin d (radians θ - 2 * Real.pi) hd]
      have hdeg : degrees (radians θ - 2 * Real.pi) = θ - 360 := by
        have hπne := Real.pi_ne_zero
        unfold degrees radians
        field_simp
        ring
      rw [hdeg, if_pos (by linarith : θ - 360 < 0), if_neg hdne,
        show θ - 360 + 360 = θ from by ring]

/-- Witness for C1 at distance 2, angle 45. -/
theorem polar_rect_roundtrip_witness :
    KenyaDemo.rect_to_polar (KenyaDemo.polar_to_rect ⟨2, 45⟩) =
      Except.ok ⟨2, if (2 : ℝ) = 0 then 0 else 45⟩ :=
  polar_rect_roundtrip 2 45 (by norm_num) (by norm_num) (by norm_num)

/-- Element-wise evaluation of `convertEach` on a mapped list whose elements
all convert successfully. -/
lemma convertEach_map_ok {α : Type} (f : Coordinate → Except String Coordinate)
    (g : α → Coordinate) (h : α → Coordinate)
    (hfg : ∀ a, f (g a) = Except.ok (h a)) :
    ∀ l : List α, Assignment.convertEach f (l.map g) = Except.ok (l.map h) := by
  intro l
  induction l with
  | nil => rfl
  | cons a rest ih => simp [Assignment.convertEach, hfg a, ih]

/-- C6: on a non-empty uniformly typed sequence, `transform_coordinates`
dispatches on the first element and applies the matching conversion to every
element in order, yielding the list of converted values of the opposite
type (equal length and index correspondence are immediate from the map). -/
theorem transform_uniform :
    (∀ ps : List PolarCoordinate, ps ≠ [] →
      Assignment.transform_coordinates (ps.map Coordinate.polar) =
        Except.ok (ps.map fun p => Coordinate.rect (Assignment.polar_to_rect p))) ∧
    (∀ rs : List RectangularCoordinate, rs ≠ [] →
      Assignment.transform_coordinates (rs.map Coordinate.rect) =
        Except.ok (rs.map fun r => Coordinate.polar (Assignment.rect_to_polar r))) := by
  constructor
  · intro ps hne
    obtain ⟨p, rest, rfl⟩ := List.exists_cons_of_ne_nil hne
    have hconv := convertEach_map_ok
      (fun c =>
        match c with
        | Coordinate.polar q => Except.ok (Coordinate.rect (Assignment.polar_to_rect q))
        | Coordinate.rect _ => Except.error "AttributeError")
      Coordinate.polar (fun q => Coordinate.rect (Assignment.polar_to_rect q))
      (fun _ => rfl) (p :: rest)
    simpa [Assignment.transform_coordinates] using hconv
  · intro rs hne
    obtain ⟨r, rest, rfl⟩ := List.exists_cons_of_ne_nil hne
    have hconv := convertEach_map_ok
      (fun c =>
        match c with
        | Coordinate.rect q => Except.ok (Coordinate.polar (Assignment.rect_to_polar q))
        | Coordinate.polar _ => Except.error "AttributeError")
      Coordinate.rect (fun q => Coordinate.polar (Assignment.rect_to_polar q))
      (fun _ => rfl) (r :: rest)
    simpa [Assignment.transform_coordinates] using hconv

/-- Witness for C6 on the singleton lists `[(1, 2)]` of each type. -/
theorem transform_uniform_witness :
    Assignment.transform_coordinates [Coordinate.polar ⟨1, 2⟩] =
      Except.ok [Coordinate.rect (Assignment.polar_to_rect ⟨1, 2⟩)] ∧
    Assignment.transform_coordinates [Coordinate.rect ⟨3, 4⟩] =
      Except.ok [Coordinate.polar (Assignment.rect_to_polar ⟨3, 4⟩)] := by
  constructor
  · simpa using transform_uniform.1 [⟨1, 2⟩] (by simp)
  · simpa using transform_uniform.2 [⟨3, 4⟩] (by simp)

/-- C7 counterexample: the line `"1,2,3"` does not contain exactly two
comma-separated fields, yet processing it produces no warning at all (the
source only warns from the `except` handler, and a failed field-count test
raises nothing) — refuting "skipped with a per-line warning". -/
theorem batch_wrong_field_count_cex :
    (KenyaDemo.processBatchPolar ["1,2,3"]).warnings = [] ∧
    (KenyaDemo.processBatchPolar ["1,2,3"]).results = [] :=
  ⟨rfl, rfl⟩

/-- C7 (amended): every line whose two comma-separated fields exist but fail
float parsing, or whose parsed distance is negative, fails and is skipped
with exactly one per-line warning while the remaining lines are processed
unchanged; a line without exactly two comma-separated fields is skipped
silently, contributing neither a row nor a warning; the three-line scenario
yields exactly the rows 1 and 3 with one warning for row 2. -/
theorem batch_partial_failure :
    ((KenyaDemo.processBatchPolar ["100.0, 45.0", "bad, data", "200.0, 135.0"]).results.map
        KenyaDemo.BatchRow.row = [1, 3] ∧
      (KenyaDemo.processBatchPolar ["100.0, 45.0", "bad, data", "200.0, 135.0"]).warnings = [2]) ∧
    (∀ i : ℕ, ∀ line f0 f1 : List Char, splitOnChar ',' line = [f0, f1] →
      (parseFloat (trimList f0) = none ∨ parseFloat (trimList f1) = none ∨
        (∃ d : ℚ, parseFloat (trimList f0) = some d ∧ d < 0)) →
      KenyaDemo.processLine i line = KenyaDemo.LineResult.failed) ∧
    (∀ i : ℕ, ∀ line : List Char, ∀ rest : List (List Char),
      KenyaDemo.processLine i line = KenyaDemo.LineResult.failed →
      KenyaDemo.processLines i (line :: rest) =
        ⟨(KenyaDemo.processLines (i + 1) rest).results,
          i :: (KenyaDemo.processLines (i + 1) rest).warnings⟩) ∧
    (∀ i : ℕ, ∀ line : List Char, (splitOnChar ',' line).length ≠ 2 →
      KenyaDemo.processLine i line = KenyaDemo.LineResult.skipped) ∧
    (∀ i : ℕ, ∀ line : List Char, ∀ rest : List (List Char),
      KenyaDemo.processLine i line = KenyaDemo.LineResult.skipped →
      KenyaDemo.processLines i (line :: rest) = KenyaDemo.processLines (i + 1) rest) := by
  refine ⟨⟨by with_unfolding_all rfl, by with_unfolding_all rfl⟩, ?_, ?_, ?_, ?_⟩
  · intro i line f0 f1 hsp hbad
    unfold KenyaDemo.processLine
    rw [hsp]
    rcases hbad with h0 | h1 | ⟨d, hd, hdneg⟩
    · simp [h0]
    · rcases hp0 : parseFloat (trimList f0) with _ | d0
      · simp [hp0]
      · simp [hp0, h1]
    · rcases hp1 : parseFloat (trimList f1) with _ | a
      · simp [hd, hp1]
      · simp [hd, hp1, hdneg]
  · intro i line rest h
    simp [KenyaDemo.processLines, h]
  · intro i line hlen
    unfold KenyaDemo.processLine
    rcases hsp : splitOnChar ',' line with _ | ⟨f0, _ | ⟨f1, _ | ⟨f2, tail⟩⟩⟩
    · rfl
    · rfl
    · exact absurd (by simp [hsp] : (splitOnChar ',' line).length = 2) hlen
    · rfl
  · intro i line rest h
    simp [KenyaDemo.processLines, h]

/-- Witness for C7: the parse-failure line `"bad, data"` fails and yields one
warning with the rest unchanged, while the three-field line `"1,2,3"` is
skipped silently. -/
theorem batch_partial_failure_witness :
    KenyaDemo.processLine 8 "bad, data".data = KenyaDemo.LineResult.failed ∧
    KenyaDemo.processLines 8 ["bad, data".data] =
      ⟨(KenyaDemo.processLines 9 []).results, 8 :: (KenyaDemo.processLines 9 []).warnings⟩ ∧
    KenyaDemo.processLine 9 "1,2,3".data = KenyaDemo.LineResult.skipped ∧
    KenyaDemo.processLines 9 ["1,2,3".data] = KenyaDemo.processLines 10 [] :=
  ⟨batch_partial_failure.2.1 8 "bad, data".data "bad".data " data".data (by decide)
      (Or.inl rfl),
    batch_partial_failure.2.2.1 8 "bad, data".data [] rfl,
    batch_partial_failure.2.2.2.1 9 "1,2,3".data (by decide),
    batch_partial_failure.2.2.2.2 9 "1,2,3".data [] rfl⟩

/-- C9 counterexample: the batch driver of `src/assignment/models.py` indexes
`input[0]` unconditionally, so the empty input raises an `IndexError` rather
than reporting "nothing to process". -/
theorem transform_empty_cex :
    Assignment.transform_coordinates [] =
      Except.error "IndexError: list index out of range" := rfl

/-- C9 (amended): the streamlit batch handler reports nothing to process on
input that is blank after stripping (instead of raising), and a failing line
never aborts the batch — it contributes exactly one warning while the
remaining lines are processed unchanged; the `Assignment` driver, by
contrast, raises on empty input (see the counterexample). -/
theorem batch_empty_report :
    (∀ s : String, trimList s.data = [] →
      KenyaDemo.runBatchPolar s = KenyaDemo.BatchReport.nothingToProcess) ∧
    (∀ i : ℕ, ∀ line : List Char, ∀ rest : List (List Char),
      KenyaDemo.processLine i line = KenyaDemo.LineResult.failed →
      KenyaDemo.processLines i (line :: rest) =
        ⟨(KenyaDemo.processLines (i + 1) rest).results,
          i :: (KenyaDemo.processLines (i + 1) rest).warnings⟩) := by
  constructor
  · intro s h
    simp [KenyaDemo.runBatchPolar, h]
  · intro i line rest h
    simp [KenyaDemo.processLines, h]

/-- Witness for C9 at the empty input and the unparsable line `"bad, data"`. -/
theorem batch_empty_report_witness :
    KenyaDemo.runBatchPolar "" = KenyaDemo.BatchReport.nothingToProcess ∧
    KenyaDemo.processLines 4 ["bad, data".data] =
      ⟨(KenyaDemo.processLines 5 []).results, 4 :: (KenyaDemo.processLines 5 []).warnings⟩ :=
  ⟨batch_empty_report.1 "" rfl, batch_empty_report.2 4 "bad, data".data [] rfl⟩
